import Mathlib

/-!
Verification of the SVG Grid Organizer (svg_grid_organizer.py).

The script is embedded shallowly:
* Python floats are modelled as rationals (`ℚ`); all the arithmetic the
  script performs on dimensions, scales and offsets is exact on the
  inputs considered here.
* an SVG input file is modelled by `SvgFile`: its basename and, when the
  file can be opened and parsed, the parsed document (`SvgDoc`) holding
  the root element's optional `width`/`height` attribute strings and its
  serialized top-level child elements; `content = none` models a file
  that cannot be read or whose markup does not parse.
* `create_svg_grid` produces a structured `OutputDoc` (total size plus
  the ordered list of emitted elements); `serializeGrid` renders it to
  the output text, parametrised by the rendering of numbers.
* `mainModel` embeds the argument filtering and exit behaviour of
  `main`; `Arg.onDisk` models `os.path.exists`.
-/

namespace SvgGrid

/-- Characters kept by the unit-stripping step of `get_svg_dimensions`
(line 29: `x.isdigit() or x == '.'`; digits are modelled as ASCII digits). -/
def keepChar (c : Char) : Bool := c.isDigit || c == '.'

/-- `''.join(filter(...))` from lines 29-30: keep only digits and dots. -/
def stripUnits (s : String) : List Char := s.data.filter keepChar

/-- Value of a decimal digit string read left to right. -/
def digitsVal (cs : List Char) : ℕ := cs.foldl (fun n c => 10 * n + (c.toNat - 48)) 0

/-- Python `float()` applied to a string made of digits and dots: it
succeeds when there is at most one dot and at least one digit
(`"1."`, `".5"`, `"50"` parse; `""`, `"."`, `"1.2.3"` raise `ValueError`,
modelled as `none`). -/
def parsePyFloat (cs : List Char) : Option ℚ :=
  if cs.all keepChar
      && decide ((cs.filter (fun c => c == '.')).length ≤ 1)
      && decide (1 ≤ (cs.filter Char.isDigit).length) then
    some ((digitsVal (cs.takeWhile (fun c => c ≠ '.')) : ℚ)
      + (digitsVal ((cs.dropWhile (fun c => c ≠ '.')).drop 1) : ℚ)
        / (10 : ℚ) ^ ((cs.dropWhile (fun c => c ≠ '.')).drop 1).length)
  else none

/-- The binary64 overflow boundary: under round-half-even, a decimal
value at or above `2^1024 - 2^970` is returned by CPython `float()` as
`inf`, without raising.  `parsePyFloat` keeps the exact rational, so a
parsed value at or above this threshold is one the real program
represents as an infinity (and still returns through the normal tuple,
not the `except` branch). -/
def floatOverflowThreshold : ℚ := 2 ^ 1024 - 2 ^ 970

/-- A parsed SVG document, as `get_svg_dimensions` and `create_svg_grid`
see it: the root's optional `width` and `height` attributes and the
serialized markup of the root's direct children (opaque strings,
re-emitted verbatim by the composer). -/
structure SvgDoc where
  widthAttr : Option String
  heightAttr : Option String
  children : List String

/-- One axis of lines 25-32: `root.get(axis, '100')`, strip units, then
`float(s) if s else 100.0`; `none` models the `float` call raising. -/
def axisVal (attr : Option String) : Option ℚ :=
  let s := stripUnits (attr.getD "100")
  if s.isEmpty then some 100 else parsePyFloat s

/-- `get_svg_dimensions` (lines 13-35).  The argument is the parse result
of the file (`none` = unreadable or malformed, the `except` branch).
A `ValueError` from either `float` call also lands in the `except`
branch, returning `(100.0, 100.0)`. -/
def get_svg_dimensions : Option SvgDoc → ℚ × ℚ
  | none => (100, 100)
  | some doc =>
    match axisVal doc.widthAttr, axisVal doc.heightAttr with
    | some w, some h => (w, h)
    | _, _ => (100, 100)

/-- Grid configuration: the keyword parameters of `create_svg_grid`. -/
structure GridSpec where
  rows : ℕ
  cols : ℕ
  cell_width : ℚ
  cell_height : ℚ
  padding : ℚ

/-- The defaults of `create_svg_grid` as called from `main` (line 188). -/
def defaultSpec : GridSpec := ⟨2, 4, 200, 200, 10⟩

/-- The fixed cell margin (line 90). -/
def margin : ℚ := 10

/-- Line 91: `(cell_width - 2*margin) / orig_width if orig_width > 0 else 1`. -/
def scale_x (g : GridSpec) (ow : ℚ) : ℚ :=
  if 0 < ow then (g.cell_width - 2 * margin) / ow else 1

/-- Line 92: `(cell_height - 2*margin) / orig_height if orig_height > 0 else 1`. -/
def scale_y (g : GridSpec) (oh : ℚ) : ℚ :=
  if 0 < oh then (g.cell_height - 2 * margin) / oh else 1

/-- Line 93: `scale = min(scale_x, scale_y)`. -/
def computeScale (g : GridSpec) (ow oh : ℚ) : ℚ :=
  min (scale_x g ow) (scale_y g oh)

/-- Line 75: `x = col * (cell_width + padding)` with `col = idx % cols`. -/
def cellX (g : GridSpec) (idx : ℕ) : ℚ :=
  ((idx % g.cols : ℕ) : ℚ) * (g.cell_width + g.padding)

/-- Line 76: `y = row * (cell_height + padding)` with `row = idx // cols`. -/
def cellY (g : GridSpec) (idx : ℕ) : ℚ :=
  ((idx / g.cols : ℕ) : ℚ) * (g.cell_height + g.padding)

/-- One input file handed to `create_svg_grid`: its basename (for the
label) and its parse result. -/
structure SvgFile where
  name : String
  content : Option SvgDoc

/-- The elements `create_svg_grid` appends to `svg_content`, in order:
the full-canvas background (line 65), a cell background rectangle
(line 102), the transform group wrapping the input's children
(lines 105-111; a single scale factor, applied to both axes by the SVG
`scale(s)` form), the filename label (line 116), and the error
placeholder rectangle and text (lines 121-122). -/
inductive Item
  | backgroundRect (w h : ℚ)
  | cellRect (x y w h : ℚ)
  | group (offsetX offsetY scale : ℚ) (children : List String)
  | label (x y : ℚ) (text : String)
  | errorRect (x y w h : ℚ)
  | errorText (x y : ℚ)
deriving DecidableEq

/-- Top-left corner of a rectangle item, if the item is one. -/
def Item.topLeft : Item → Option (ℚ × ℚ)
  | .cellRect x y _ _ => some (x, y)
  | .errorRect x y _ _ => some (x, y)
  | _ => none

/-- Whether the item is the full-canvas background rectangle. -/
def Item.isBackground : Item → Bool
  | .backgroundRect _ _ => true
  | _ => false

/-- Whether the item belongs to an error placeholder (lines 121-122). -/
def Item.isErrorItem : Item → Bool
  | .errorRect _ _ _ _ => true
  | .errorText _ _ => true
  | _ => false

/-- The loop body of `create_svg_grid` (lines 68-122) for index `idx`:
on a successful read-and-parse, the cell background, the scaled and
centered group holding the children verbatim, and the filename label;
on failure, the error placeholder rectangle and centered error text. -/
def cellItems (g : GridSpec) (idx : ℕ) (f : SvgFile) : List Item :=
  let x := cellX g idx
  let y := cellY g idx
  match f.content with
  | some doc =>
    let ow := (get_svg_dimensions (some doc)).1
    let oh := (get_svg_dimensions (some doc)).2
    let scale := computeScale g ow oh
    [ Item.cellRect x y g.cell_width g.cell_height,
      Item.group (x + (g.cell_width - ow * scale) / 2)
                 (y + (g.cell_height - oh * scale) / 2) scale doc.children,
      Item.label (x + g.cell_width / 2) (y + g.cell_height - 5) f.name ]
  | none =>
    [ Item.errorRect x y g.cell_width g.cell_height,
      Item.errorText (x + g.cell_width / 2) (y + g.cell_height / 2) ]

/-- The `for idx, svg_file in enumerate(svg_files)` loop, emitting each
cell's items in order; the caller truncates at grid capacity, modelling
the `break` of lines 69-70. -/
def placeCells (g : GridSpec) : ℕ → List SvgFile → List Item
  | _, [] => []
  | idx, f :: fs => cellItems g idx f ++ placeCells g (idx + 1) fs

/-- The composed output: total canvas size (lines 55-56) and the ordered
emitted elements. -/
structure OutputDoc where
  totalWidth : ℚ
  totalHeight : ℚ
  items : List Item

/-- `create_svg_grid` (lines 38-128), structurally: computes the total
size, emits the full-canvas background, then one block of items per
input in order, stopping at `rows*cols` inputs. -/
def create_svg_grid (svg_files : List SvgFile) (g : GridSpec) : OutputDoc :=
  let total_width := (g.cols : ℚ) * g.cell_width + ((g.cols : ℚ) - 1) * g.padding
  let total_height := (g.rows : ℚ) * g.cell_height + ((g.rows : ℚ) - 1) * g.padding
  { totalWidth := total_width
    totalHeight := total_height
    items := Item.backgroundRect total_width total_height
      :: placeCells g 0 (svg_files.take (g.rows * g.cols)) }

/-- The fixed text of lines 59-61 up to the first interpolated number. -/
def headerStart : String :=
  "<?xml version=\"1.0\" encoding=\"UTF-8\"?>\n<svg xmlns=\"http://www.w3.org/2000/svg\" xmlns:xlink=\"http://www.w3.org/1999/xlink\"\n     width=\""

/-- The document header (lines 59-62), given a rendering `sq` of numbers. -/
def headerText (sq : ℚ → String) (tw th : ℚ) : String :=
  headerStart ++ sq tw ++ "\" height=\"" ++ sq th ++ "\" viewBox=\"0 0 "
    ++ sq tw ++ " " ++ sq th ++ "\">\n"

/-- The markup emitted for one item, exactly as the f-strings of
`create_svg_grid` build it, with `sq` rendering the numbers. -/
def renderItem (sq : ℚ → String) : Item → String
  | .backgroundRect w h =>
    "  <rect width=\"" ++ sq w ++ "\" height=\"" ++ sq h ++ "\" fill=\"#f0f0f0\"/>\n\n"
  | .cellRect x y w h =>
    "  <rect x=\"" ++ sq x ++ "\" y=\"" ++ sq y ++ "\" width=\"" ++ sq w
      ++ "\" height=\"" ++ sq h ++ "\" fill=\"white\" stroke=\"#ccc\" stroke-width=\"1\"/>\n"
  | .group ox oy s cs =>
    "  <g transform=\"translate(" ++ sq ox ++ ", " ++ sq oy ++ ") scale(" ++ sq s ++ ")\">\n"
      ++ String.join (cs.map (fun c => "    " ++ c ++ "\n")) ++ "  </g>\n\n"
  | .label x y t =>
    "  <text x=\"" ++ sq x ++ "\" y=\"" ++ sq y
      ++ "\" text-anchor=\"middle\" font-size=\"10\" fill=\"#666\">" ++ t ++ "</text>\n\n"
  | .errorRect x y w h =>
    "  <rect x=\"" ++ sq x ++ "\" y=\"" ++ sq y ++ "\" width=\"" ++ sq w
      ++ "\" height=\"" ++ sq h ++ "\" fill=\"#ffcccc\" stroke=\"red\"/>\n"
  | .errorText x y =>
    "  <text x=\"" ++ sq x ++ "\" y=\"" ++ sq y
      ++ "\" text-anchor=\"middle\" fill=\"red\">Error loading file</text>\n\n"

/-- The full serialized `svg_content` (header, items, closing tag). -/
def serializeGrid (sq : ℚ → String) (d : OutputDoc) : String :=
  headerText sq d.totalWidth d.totalHeight
    ++ String.join (d.items.map (renderItem sq)) ++ "</svg>"

/-- One command-line argument as `main` sees it: its text and whether
`os.path.exists` holds for it. -/
structure Arg where
  name : String
  onDisk : Bool

/-- Python's `arg.endswith('.svg')`. -/
def endsWithSvg (s : String) : Bool := ".svg".data.isSuffixOf s.data

/-- The loop body of lines 151-160: an existing `.svg` argument is
collected; a non-existing `.svg` argument becomes the output path once
at least 8 inputs were already collected; anything else is skipped. -/
def collectStep (acc : List String × String) (a : Arg) : List String × String :=
  if endsWithSvg a.name then
    if a.onDisk then (acc.1 ++ [a.name], acc.2)
    else if 8 ≤ acc.1.length then (acc.1, a.name) else acc
  else acc

/-- Outcome of `main`: exit with status 1 at the usage check (line 145),
exit with status 1 because no valid inputs remain (line 181) — in both
cases `create_svg_grid` is never called and nothing is written — or a
call `create_svg_grid(files, output)` followed by the write. -/
inductive MainResult
  | usageExit
  | noInputsExit
  | composed (files : List String) (output : String)
deriving DecidableEq

/-- Whether the run aborts with a non-zero exit status. -/
def MainResult.aborts : MainResult → Bool
  | .usageExit => true
  | .noInputsExit => true
  | .composed _ _ => false

/-- The state after the collection loop of lines 148-160:
`(svg_files, output_file)`. -/
def collectState (args : List Arg) : List String × String :=
  args.foldl collectStep ([], "grid_output.svg")

/-- `svg_files` after the over-8 trim of lines 163-165. -/
def trimmedFiles (args : List Arg) : List String :=
  if 8 < (collectState args).1.length then (collectState args).1.take 8
  else (collectState args).1

/-- `output_file` after lines 163-165 (`svg_files[-1]` when trimming). -/
def trimmedOutput (args : List Arg) : String :=
  if 8 < (collectState args).1.length then
    (collectState args).1.getLastD (collectState args).2
  else (collectState args).2

/-- `svg_files` after padding with `None` up to 8 entries (lines
167-174) and filtering the `None`s back out (line 177). -/
def finalFiles (args : List Arg) : List String :=
  ((trimmedFiles args).map some
    ++ List.replicate (8 - (trimmedFiles args).length) (none : Option String)).filterMap id

/-- `main` (lines 136-188) up to its effect: usage exit when no
arguments (line 145), the collection loop, the over-8 trim re-assigning
the output path, the `None` padding and filtering, then the zero-input
exit of lines 179-181 or the call
`create_svg_grid(svg_files, output_file)` followed by the write. -/
def mainModel (args : List Arg) : MainResult :=
  if args.length < 1 then .usageExit
  else if (finalFiles args).isEmpty then .noInputsExit
  else .composed (finalFiles args) (trimmedOutput args)

end SvgGrid

namespace SvgGrid

lemma parsePyFloat_nonneg {cs : List Char} {q : ℚ} (h : parsePyFloat cs = some q) : 0 ≤ q := by
  unfold parsePyFloat at h
  split at h
  · have hq := Option.some.inj h
    rw [← hq]
    positivity
  · exact absurd h (by simp)

lemma axisVal_nonneg {a : Option String} {q : ℚ} (h : axisVal a = some q) : 0 ≤ q := by
  simp only [axisVal] at h
  split at h
  · have hq := Option.some.inj h
    rw [← hq]
    norm_num
  · exact parsePyFloat_nonneg h

lemma dims_nonneg (p : Option SvgDoc) :
    0 ≤ (get_svg_dimensions p).1 ∧ 0 ≤ (get_svg_dimensions p).2 := by
  match p with
  | none => exact ⟨by norm_num [get_svg_dimensions], by norm_num [get_svg_dimensions]⟩
  | some doc =>
    cases hw : axisVal doc.widthAttr with
    | none => simp [get_svg_dimensions, hw]
    | some w =>
      cases hh : axisVal doc.heightAttr with
      | none => simp [get_svg_dimensions, hw, hh]
      | some h =>
        simp only [get_svg_dimensions, hw, hh]
        exact ⟨axisVal_nonneg hw, axisVal_nonneg hh⟩

lemma axisVal_none_attr : axisVal none = some 100 := by
  simp +decide [axisVal, stripUnits, parsePyFloat, keepChar, digitsVal]

lemma axisVal_empty_strip {a : Option String} (h : stripUnits (a.getD "100") = []) :
    axisVal a = some 100 := by
  unfold axisVal
  simp [h]

lemma get_svg_dimensions_pair {doc : SvgDoc} {w h : ℚ}
    (hw : axisVal doc.widthAttr = some w) (hh : axisVal doc.heightAttr = some h) :
    get_svg_dimensions (some doc) = (w, h) := by
  simp [get_svg_dimensions, hw, hh]

lemma get_svg_dimensions_wfail {doc : SvgDoc} (hw : axisVal doc.widthAttr = none) :
    get_svg_dimensions (some doc) = (100, 100) := by
  simp [get_svg_dimensions, hw]

lemma get_svg_dimensions_hfail {doc : SvgDoc} (hh : axisVal doc.heightAttr = none) :
    get_svg_dimensions (some doc) = (100, 100) := by
  cases hw : axisVal doc.widthAttr <;> simp [get_svg_dimensions, hw, hh]

/-- C9: in the scale computation of `create_svg_grid`, a zero extracted
width or height makes the corresponding per-axis fit ratio default to 1
(the `else` branch of lines 91-92) instead of dividing; for any
extracted dimensions, each per-axis ratio either divides by a strictly
positive number or is the default 1, and the scale is the minimum of
the two ratios. -/
theorem scale_zero_guard (g : GridSpec) (p : Option SvgDoc) :
    scale_x g 0 = 1 ∧ scale_y g 0 = 1
    ∧ (0 < (get_svg_dimensions p).1 ∨ scale_x g (get_svg_dimensions p).1 = 1)
    ∧ (0 < (get_svg_dimensions p).2 ∨ scale_y g (get_svg_dimensions p).2 = 1)
    ∧ computeScale g (get_svg_dimensions p).1 (get_svg_dimensions p).2
        = min (scale_x g (get_svg_dimensions p).1) (scale_y g (get_svg_dimensions p).2) := by
  refine ⟨by simp [scale_x], by simp [scale_y], ?_, ?_, rfl⟩
  · by_cases h : 0 < (get_svg_dimensions p).1
    · exact Or.inl h
    · exact Or.inr (by simp [scale_x, h])
  · by_cases h : 0 < (get_svg_dimensions p).2
    · exact Or.inl h
    · exact Or.inr (by simp [scale_y, h])

/-- C2 counterexample: an input whose root carries `width="0"` parses to
extracted dimensions `(0, 100)`, whose first component is not positive,
so extraction does not always return two positive numbers. -/
theorem dims_zero_counterexample :
    get_svg_dimensions (some ⟨some "0", some "100", []⟩) = (0, 100)
    ∧ ¬ (0 < (get_svg_dimensions (some ⟨some "0", some "100", []⟩)).1) := by
  have h : get_svg_dimensions (some ⟨some "0", some "100", []⟩) = (0, 100) := by
    simp +decide [get_svg_dimensions, axisVal, stripUnits, parsePyFloat, keepChar, digitsVal]
  exact ⟨h, by rw [h]; norm_num⟩

lemma filter_of_all {p : Char → Bool} :
    ∀ l : List Char, (∀ c ∈ l, p c = true) → l.filter p = l := by
  intro l
  induction l with
  | nil => intro _; rfl
  | cons x xs ih =>
    intro h
    rw [List.filter_cons, h x (List.mem_cons_self _ _)]
    simp [ih (fun c hc => h c (List.mem_cons_of_mem _ hc))]

lemma filter_of_none {p : Char → Bool} :
    ∀ l : List Char, (∀ c ∈ l, p c = false) → l.filter p = [] := by
  intro l
  induction l with
  | nil => intro _; rfl
  | cons x xs ih =>
    intro h
    rw [List.filter_cons, h x (List.mem_cons_self _ _)]
    exact ih (fun c hc => h c (List.mem_cons_of_mem _ hc))

lemma takeWhile_of_all {p : Char → Bool} :
    ∀ l : List Char, (∀ c ∈ l, p c = true) → l.takeWhile p = l ∧ l.dropWhile p = [] := by
  intro l
  induction l with
  | nil => intro _; exact ⟨rfl, rfl⟩
  | cons x xs ih =>
    intro h
    have hx := h x (List.mem_cons_self _ _)
    have hxs := ih (fun c hc => h c (List.mem_cons_of_mem _ hc))
    constructor
    · rw [List.takeWhile_cons, hx]
      simp [hxs.1]
    · rw [List.dropWhile_cons, hx]
      simp [hxs.2]

lemma foldl_digits_replicate_zero (n : ℕ) : ∀ a : ℕ,
    List.foldl (fun m c => 10 * m + (c.toNat - 48)) a (List.replicate n '0') = a * 10 ^ n := by
  induction n with
  | zero => intro a; simp
  | succ m ih =>
    intro a
    rw [List.replicate_succ, List.foldl_cons]
    have h0 : 10 * a + ('0'.toNat - 48) = 10 * a := rfl
    rw [h0, ih, pow_succ]
    ring

lemma digitsVal_one_zeros : digitsVal ('1' :: List.replicate 400 '0') = 10 ^ 400 := by
  rw [digitsVal, List.foldl_cons]
  have h1 : 10 * 0 + ('1'.toNat - 48) = 1 := rfl
  rw [h1, foldl_digits_replicate_zero 400 1, one_mul]

lemma overflow_input_mem : ∀ c ∈ ('1' :: List.replicate 400 '0'), c = '1' ∨ c = '0' := by
  intro c hc
  rcases List.mem_cons.mp hc with rfl | hc
  · exact Or.inl rfl
  · exact Or.inr (List.eq_of_mem_replicate hc)

lemma parsePyFloat_overflow_input :
    parsePyFloat ('1' :: List.replicate 400 '0') = some ((10 : ℚ) ^ 400) := by
  have hkeep : ∀ c ∈ ('1' :: List.replicate 400 '0'), keepChar c = true := by
    intro c hc
    rcases overflow_input_mem c hc with rfl | rfl <;> rfl
  have hcond : (('1' :: List.replicate 400 '0').all keepChar
      && decide ((('1' :: List.replicate 400 '0').filter (fun c => c == '.')).length ≤ 1)
      && decide (1 ≤ (('1' :: List.replicate 400 '0').filter Char.isDigit).length)) = true := by
    have hdot : ('1' :: List.replicate 400 '0').filter (fun c => c == '.') = [] := by
      refine filter_of_none _ ?_
      intro c hc
      rcases overflow_input_mem c hc with rfl | rfl <;> rfl
    have hdig : ('1' :: List.replicate 400 '0').filter Char.isDigit
        = '1' :: List.replicate 400 '0' := by
      refine filter_of_all _ ?_
      intro c hc
      rcases overflow_input_mem c hc with rfl | rfl <;> rfl
    have hlen : 1 ≤ (('1' :: List.replicate 400 '0').filter Char.isDigit).length := by
      rw [hdig, List.length_cons]
      omega
    rw [Bool.and_eq_true, Bool.and_eq_true]
    refine ⟨⟨List.all_eq_true.mpr hkeep, ?_⟩, decide_eq_true hlen⟩
    rw [hdot]
    rfl
  have htake := takeWhile_of_all ('1' :: List.replicate 400 '0')
    (p := fun c => decide (c ≠ '.'))
    (by intro c hc; rcases overflow_input_mem c hc with rfl | rfl <;> rfl)
  rw [parsePyFloat, if_pos hcond, htake.1, htake.2, digitsVal_one_zeros]
  norm_num [digitsVal]

lemma axisVal_overflow_input :
    axisVal (some (String.mk ('1' :: List.replicate 400 '0'))) = some ((10 : ℚ) ^ 400) := by
  have hstrip : stripUnits (String.mk ('1' :: List.replicate 400 '0'))
      = '1' :: List.replicate 400 '0' := by
    refine filter_of_all _ ?_
    intro c hc
    rcases overflow_input_mem c hc with rfl | rfl <;> rfl
  rw [axisVal]
  simp only [Option.getD_some, hstrip]
  rw [if_neg (by rw [List.isEmpty_cons]; exact Bool.false_ne_true), parsePyFloat_overflow_input]

/-- C2 amended: extraction never raises (it is total) and always
returns two nonnegative numbers, but neither positivity nor finiteness
is guaranteed: besides the zero case, a width of `'1'` followed by 400
`'0'`s survives stripping and parses through the normal tuple return —
the `except` branch does not fire — to the exact value `10^400`, which
is at or above the binary64 overflow threshold `2^1024 - 2^970` that
CPython `float()` rounds to `inf`. -/
theorem dims_nonneg_overflow :
    (∀ p : Option SvgDoc, 0 ≤ (get_svg_dimensions p).1 ∧ 0 ≤ (get_svg_dimensions p).2)
    ∧ get_svg_dimensions
        (some ⟨some (String.mk ('1' :: List.replicate 400 '0')), some "100", []⟩)
        = ((10 : ℚ) ^ 400, 100)
    ∧ floatOverflowThreshold ≤ (10 : ℚ) ^ 400 := by
  refine ⟨dims_nonneg, ?_, ?_⟩
  · exact get_svg_dimensions_pair axisVal_overflow_input
      (by simp +decide [axisVal, stripUnits, parsePyFloat, keepChar, digitsVal])
  · rw [floatOverflowThreshold]
    norm_num

end SvgGrid

namespace SvgGrid

/-- C3 counterexample: a document whose root lacks only the `width`
attribute while `height="50"` yields `(100, 50)`, not `(100, 100)` —
the missing axis defaults alone, so the claim's `(100.0, 100.0)` result
does not hold for every input lacking one of the two attributes. -/
theorem missing_width_counterexample :
    (⟨none, some "50", []⟩ : SvgDoc).widthAttr = none
    ∧ get_svg_dimensions (some ⟨none, some "50", []⟩) = (100, 50)
    ∧ get_svg_dimensions (some ⟨none, some "50", []⟩) ≠ (100, 100) := by
  have h : get_svg_dimensions (some ⟨none, some "50", []⟩) = (100, 50) := by
    simp +decide [get_svg_dimensions, axisVal, stripUnits, parsePyFloat, keepChar, digitsVal]
  refine ⟨rfl, h, ?_⟩
  rw [h]
  intro hc
  exact absurd (congrArg Prod.snd hc) (by norm_num)

/-- C3 amended: an unreadable or unparsable file yields exactly
`(100, 100)`; a document lacking both attributes yields `(100, 100)`;
an axis value that strips to a nonempty string unparsable as a number
(the `float` call raising) sends BOTH axes to the default `(100, 100)`;
but an attribute that is merely missing, or whose value strips to the
empty string, defaults its own axis to `100` independently, the other
axis keeping its parsed value. -/
theorem dims_default_cases :
    get_svg_dimensions none = (100, 100)
    ∧ (∀ doc : SvgDoc, doc.widthAttr = none → doc.heightAttr = none →
        get_svg_dimensions (some doc) = (100, 100))
    ∧ (∀ doc : SvgDoc, axisVal doc.widthAttr = none →
        get_svg_dimensions (some doc) = (100, 100))
    ∧ (∀ doc : SvgDoc, axisVal doc.heightAttr = none →
        get_svg_dimensions (some doc) = (100, 100))
    ∧ (∀ (doc : SvgDoc) (q : ℚ), doc.widthAttr = none →
        axisVal doc.heightAttr = some q → get_svg_dimensions (some doc) = (100, q))
    ∧ (∀ (doc : SvgDoc) (q : ℚ), stripUnits (doc.widthAttr.getD "100") = [] →
        axisVal doc.heightAttr = some q → get_svg_dimensions (some doc) = (100, q))
    ∧ (∀ (doc : SvgDoc) (q : ℚ), doc.heightAttr = none →
        axisVal doc.widthAttr = some q → get_svg_dimensions (some doc) = (q, 100))
    ∧ (∀ (doc : SvgDoc) (q : ℚ), stripUnits (doc.heightAttr.getD "100") = [] →
        axisVal doc.widthAttr = some q → get_svg_dimensions (some doc) = (q, 100)) := by
  refine ⟨rfl, ?_, ?_, ?_, ?_, ?_, ?_, ?_⟩
  · intro doc hw hh
    exact get_svg_dimensions_pair (by rw [hw]; exact axisVal_none_attr)
      (by rw [hh]; exact axisVal_none_attr)
  · intro doc hw
    exact get_svg_dimensions_wfail hw
  · intro doc hh
    exact get_svg_dimensions_hfail hh
  · intro doc q hw hq
    exact get_svg_dimensions_pair (by rw [hw]; exact axisVal_none_attr) hq
  · intro doc q hw hq
    exact get_svg_dimensions_pair (axisVal_empty_strip hw) hq
  · intro doc q hh hq
    exact get_svg_dimensions_pair hq (by rw [hh]; exact axisVal_none_attr)
  · intro doc q hh hq
    exact get_svg_dimensions_pair hq (axisVal_empty_strip hh)

/-- C3 witness: the amended theorem applied to concrete inputs — a
value `"1.2.3"` that strips to a nonempty unparsable string sends both
axes to the default even though `height="50"` parses, and a missing
width defaults independently next to `height="50"`. -/
theorem dims_default_cases_witness :
    get_svg_dimensions (some ⟨some "1.2.3", some "50", []⟩) = (100, 100)
    ∧ get_svg_dimensions (some ⟨none, some "50", []⟩) = (100, 50) :=
  ⟨dims_default_cases.2.2.1 ⟨some "1.2.3", some "50", []⟩
      (by simp +decide [axisVal, stripUnits, parsePyFloat, keepChar]),
   dims_default_cases.2.2.2.2.1 ⟨none, some "50", []⟩ 50 rfl
      (by simp +decide [axisVal, stripUnits, parsePyFloat, keepChar, digitsVal])⟩

end SvgGrid

namespace SvgGrid

lemma cellItems_some (g : GridSpec) (idx : ℕ) (f : SvgFile) (doc : SvgDoc)
    (hc : f.content = some doc) :
    cellItems g idx f =
      [ Item.cellRect (cellX g idx) (cellY g idx) g.cell_width g.cell_height,
        Item.group
          (cellX g idx + (g.cell_width
            - (get_svg_dimensions (some doc)).1
              * computeScale g (get_svg_dimensions (some doc)).1 (get_svg_dimensions (some doc)).2) / 2)
          (cellY g idx + (g.cell_height
            - (get_svg_dimensions (some doc)).2
              * computeScale g (get_svg_dimensions (some doc)).1 (get_svg_dimensions (some doc)).2) / 2)
          (computeScale g (get_svg_dimensions (some doc)).1 (get_svg_dimensions (some doc)).2)
          doc.children,
        Item.label (cellX g idx + g.cell_width / 2) (cellY g idx + g.cell_height - 5) f.name ] := by
  simp [cellItems, hc]

lemma cellItems_none (g : GridSpec) (idx : ℕ) (f : SvgFile) (hc : f.content = none) :
    cellItems g idx f =
      [ Item.errorRect (cellX g idx) (cellY g idx) g.cell_width g.cell_height,
        Item.errorText (cellX g idx + g.cell_width / 2) (cellY g idx + g.cell_height / 2) ] := by
  simp [cellItems, hc]

/-- C1: for a successfully parsed input whose extracted intrinsic size
`(w, h)` is positive on both axes, the transform group emitted for its
cell carries the single scale factor
`min((cell_width - 2*margin)/w, (cell_height - 2*margin)/h)` — applied
to both axes by the one-argument `scale(s)` form — and the scaled
content size `(w*s, h*s)` never exceeds the margin-inset cell size. -/
theorem scale_min_and_fits (g : GridSpec) (idx : ℕ) (f : SvgFile) (doc : SvgDoc)
    (hc : f.content = some doc)
    (hw : 0 < (get_svg_dimensions (some doc)).1)
    (hh : 0 < (get_svg_dimensions (some doc)).2) :
    ∃ ox oy,
      (cellItems g idx f).get? 1 = some (Item.group ox oy
        (min ((g.cell_width - 2 * margin) / (get_svg_dimensions (some doc)).1)
             ((g.cell_height - 2 * margin) / (get_svg_dimensions (some doc)).2)) doc.children)
      ∧ (get_svg_dimensions (some doc)).1 *
          min ((g.cell_width - 2 * margin) / (get_svg_dimensions (some doc)).1)
              ((g.cell_height - 2 * margin) / (get_svg_dimensions (some doc)).2)
            ≤ g.cell_width - 2 * margin
      ∧ (get_svg_dimensions (some doc)).2 *
          min ((g.cell_width - 2 * margin) / (get_svg_dimensions (some doc)).1)
              ((g.cell_height - 2 * margin) / (get_svg_dimensions (some doc)).2)
            ≤ g.cell_height - 2 * margin := by
  have hsc : computeScale g (get_svg_dimensions (some doc)).1 (get_svg_dimensions (some doc)).2
      = min ((g.cell_width - 2 * margin) / (get_svg_dimensions (some doc)).1)
            ((g.cell_height - 2 * margin) / (get_svg_dimensions (some doc)).2) := by
    rw [computeScale, scale_x, scale_y, if_pos hw, if_pos hh]
  refine ⟨cellX g idx + (g.cell_width
      - (get_svg_dimensions (some doc)).1
        * computeScale g (get_svg_dimensions (some doc)).1 (get_svg_dimensions (some doc)).2) / 2,
    cellY g idx + (g.cell_height
      - (get_svg_dimensions (some doc)).2
        * computeScale g (get_svg_dimensions (some doc)).1 (get_svg_dimensions (some doc)).2) / 2,
    ?_, ?_, ?_⟩
  · rw [cellItems_some g idx f doc hc, hsc]
    rfl
  · calc (get_svg_dimensions (some doc)).1 * min _ _
        ≤ (get_svg_dimensions (some doc)).1
            * ((g.cell_width - 2 * margin) / (get_svg_dimensions (some doc)).1) :=
          mul_le_mul_of_nonneg_left (min_le_left _ _) (le_of_lt hw)
      _ = g.cell_width - 2 * margin := by field_simp
  · calc (get_svg_dimensions (some doc)).2 * min _ _
        ≤ (get_svg_dimensions (some doc)).2
            * ((g.cell_height - 2 * margin) / (get_svg_dimensions (some doc)).2) :=
          mul_le_mul_of_nonneg_left (min_le_right _ _) (le_of_lt hh)
      _ = g.cell_height - 2 * margin := by field_simp

/-- C1 witness: the theorem instantiated at the default grid and an
input of intrinsic size 50 by 100. -/
theorem scale_min_and_fits_witness :
    0 < (get_svg_dimensions (some ⟨some "50", some "100", []⟩)).1
    ∧ 0 < (get_svg_dimensions (some ⟨some "50", some "100", []⟩)).2
    ∧ ∃ ox oy,
      (cellItems defaultSpec 0 ⟨"a.svg", some ⟨some "50", some "100", []⟩⟩).get? 1
          = some (Item.group ox oy
        (min ((defaultSpec.cell_width - 2 * margin)
              / (get_svg_dimensions (some ⟨some "50", some "100", []⟩)).1)
             ((defaultSpec.cell_height - 2 * margin)
              / (get_svg_dimensions (some ⟨some "50", some "100", []⟩)).2))
        (⟨some "50", some "100", []⟩ : SvgDoc).children)
      ∧ (get_svg_dimensions (some ⟨some "50", some "100", []⟩)).1 *
          min ((defaultSpec.cell_width - 2 * margin)
                / (get_svg_dimensions (some ⟨some "50", some "100", []⟩)).1)
              ((defaultSpec.cell_height - 2 * margin)
                / (get_svg_dimensions (some ⟨some "50", some "100", []⟩)).2)
            ≤ defaultSpec.cell_width - 2 * margin
      ∧ (get_svg_dimensions (some ⟨some "50", some "100", []⟩)).2 *
          min ((defaultSpec.cell_width - 2 * margin)
                / (get_svg_dimensions (some ⟨some "50", some "100", []⟩)).1)
              ((defaultSpec.cell_height - 2 * margin)
                / (get_svg_dimensions (some ⟨some "50", some "100", []⟩)).2)
            ≤ defaultSpec.cell_height - 2 * margin := by
  have hdim : get_svg_dimensions (some ⟨some "50", some "100", []⟩) = (50, 100) := by
    simp +decide [get_svg_dimensions, axisVal, stripUnits, parsePyFloat, keepChar, digitsVal]
  refine ⟨by rw [hdim]; norm_num, by rw [hdim]; norm_num, ?_⟩
  exact scale_min_and_fits defaultSpec 0 ⟨"a.svg", some ⟨some "50", some "100", []⟩⟩
    ⟨some "50", some "100", []⟩ rfl (by rw [hdim]; norm_num) (by rw [hdim]; norm_num)

end SvgGrid

namespace SvgGrid

lemma placeCells_decomp (g : GridSpec) :
    ∀ (fs : List SvgFile) (k i : ℕ) (h : i < fs.length),
    ∃ pre post,
      placeCells g k fs = pre ++ cellItems g (k + i) (fs.get ⟨i, h⟩) ++ post := by
  intro fs
  induction fs with
  | nil =>
    intro k i h
    exact absurd h (by simp)
  | cons f fs ih =>
    intro k i h
    match i with
    | 0 => exact ⟨[], placeCells g (k + 1) fs, by simp [placeCells]⟩
    | j + 1 =>
      obtain ⟨pre, post, hp⟩ := ih (k + 1) j (by simpa using h)
      refine ⟨cellItems g k f ++ pre, post, ?_⟩
      have hk : k + 1 + j = k + (j + 1) := by omega
      rw [hk] at hp
      simp [placeCells, hp]

lemma grid_block (g : GridSpec) (files : List SvgFile) (i : ℕ)
    (hi : i < files.length) (hcap : i < g.rows * g.cols) :
    ∃ pre post,
      (create_svg_grid files g).items
        = pre ++ cellItems g i (files.get ⟨i, hi⟩) ++ post := by
  have hlen : i < (files.take (g.rows * g.cols)).length := by
    simp [List.length_take]
    omega
  obtain ⟨pre, post, hp⟩ := placeCells_decomp g (files.take (g.rows * g.cols)) 0 i hlen
  have hget : (files.take (g.rows * g.cols)).get ⟨i, hlen⟩ = files.get ⟨i, hi⟩ :=
    (List.get_take files hi hcap).symm
  refine ⟨Item.backgroundRect ((g.cols : ℚ) * g.cell_width + ((g.cols : ℚ) - 1) * g.padding)
      ((g.rows : ℚ) * g.cell_height + ((g.rows : ℚ) - 1) * g.padding) :: pre, post, ?_⟩
  have hitems : (create_svg_grid files g).items
      = Item.backgroundRect ((g.cols : ℚ) * g.cell_width + ((g.cols : ℚ) - 1) * g.padding)
          ((g.rows : ℚ) * g.cell_height + ((g.rows : ℚ) - 1) * g.padding)
        :: placeCells g 0 (files.take (g.rows * g.cols)) := rfl
  rw [hitems, hp, hget]
  simp

/-- C4: every cell placed by `create_svg_grid` — whether the normal
cell or the error placeholder — starts with a rectangle whose top-left
corner is `((i mod cols) * (cell_width + padding),
(i div cols) * (cell_height + padding))`, with integer division for the
row, and the cell's block of elements appears in the output document at
its place. -/
theorem cell_corner_formula (g : GridSpec) (files : List SvgFile) (i : ℕ)
    (hi : i < files.length) (hcap : i < g.rows * g.cols) :
    (∃ pre post,
      (create_svg_grid files g).items
        = pre ++ cellItems g i (files.get ⟨i, hi⟩) ++ post)
    ∧ (cellItems g i (files.get ⟨i, hi⟩)).head?.bind Item.topLeft
        = some (((i % g.cols : ℕ) : ℚ) * (g.cell_width + g.padding),
                ((i / g.cols : ℕ) : ℚ) * (g.cell_height + g.padding)) := by
  refine ⟨grid_block g files i hi hcap, ?_⟩
  cases hc : (files.get ⟨i, hi⟩).content with
  | none =>
    rw [cellItems_none g i _ hc]
    rfl
  | some doc =>
    rw [cellItems_some g i _ doc hc]
    rfl

/-- C4 witness: the theorem instantiated at the default grid and a
single valid input placed in cell 0. -/
theorem cell_corner_formula_witness :
    0 < ([⟨"a.svg", some ⟨some "50", some "100", []⟩⟩] : List SvgFile).length
    ∧ 0 < defaultSpec.rows * defaultSpec.cols
    ∧ ((∃ pre post,
        (create_svg_grid [⟨"a.svg", some ⟨some "50", some "100", []⟩⟩] defaultSpec).items
          = pre ++ cellItems defaultSpec 0
              (([⟨"a.svg", some ⟨some "50", some "100", []⟩⟩] : List SvgFile).get ⟨0, by norm_num⟩)
            ++ post)
      ∧ (cellItems defaultSpec 0
            (([⟨"a.svg", some ⟨some "50", some "100", []⟩⟩] : List SvgFile).get ⟨0, by norm_num⟩)).head?.bind
          Item.topLeft
          = some (((0 % defaultSpec.cols : ℕ) : ℚ) * (defaultSpec.cell_width + defaultSpec.padding),
                  ((0 / defaultSpec.cols : ℕ) : ℚ) * (defaultSpec.cell_height + defaultSpec.padding))) :=
  ⟨by norm_num, by norm_num [defaultSpec],
    cell_corner_formula defaultSpec [⟨"a.svg", some ⟨some "50", some "100", []⟩⟩] 0
      (by norm_num) (by norm_num [defaultSpec])⟩

/-- C5: the total canvas width and height of the output document equal
`cols * cell_width + (cols - 1) * padding` and
`rows * cell_height + (rows - 1) * padding` exactly, and the serialized
output embeds them in the document header. -/
theorem total_size_formula (sq : ℚ → String) (g : GridSpec) (files : List SvgFile) :
    (create_svg_grid files g).totalWidth
        = (g.cols : ℚ) * g.cell_width + ((g.cols : ℚ) - 1) * g.padding
    ∧ (create_svg_grid files g).totalHeight
        = (g.rows : ℚ) * g.cell_height + ((g.rows : ℚ) - 1) * g.padding
    ∧ ∃ rest, serializeGrid sq (create_svg_grid files g)
        = headerText sq ((g.cols : ℚ) * g.cell_width + ((g.cols : ℚ) - 1) * g.padding)
            ((g.rows : ℚ) * g.cell_height + ((g.rows : ℚ) - 1) * g.padding) ++ rest :=
  ⟨rfl, rfl,
    ⟨String.join ((create_svg_grid files g).items.map (renderItem sq)) ++ "</svg>", by
      rw [serializeGrid, String.append_assoc]
      rfl⟩⟩

end SvgGrid

namespace SvgGrid

/-- C6: for every successfully parsed input placed in the grid, the
output contains, at that cell's place, the cell rectangle, then a
transform group whose wrapped content is exactly the input's list of
serialized top-level children — the same list, hence element-wise
verbatim and in the original document order — then the filename label. -/
theorem children_verbatim (g : GridSpec) (files : List SvgFile) (i : ℕ) (doc : SvgDoc)
    (hi : i < files.length) (hcap : i < g.rows * g.cols)
    (hdoc : (files.get ⟨i, hi⟩).content = some doc) :
    ∃ pre post ox oy s,
      (create_svg_grid files g).items
        = pre ++ (Item.cellRect (cellX g i) (cellY g i) g.cell_width g.cell_height
            :: Item.group ox oy s doc.children
            :: Item.label (cellX g i + g.cell_width / 2) (cellY g i + g.cell_height - 5)
                 (files.get ⟨i, hi⟩).name
            :: post) := by
  obtain ⟨pre, post, hp⟩ := grid_block g files i hi hcap
  rw [cellItems_some g i _ doc hdoc] at hp
  refine ⟨pre, post,
    cellX g i + (g.cell_width - (get_svg_dimensions (some doc)).1
      * computeScale g (get_svg_dimensions (some doc)).1 (get_svg_dimensions (some doc)).2) / 2,
    cellY g i + (g.cell_height - (get_svg_dimensions (some doc)).2
      * computeScale g (get_svg_dimensions (some doc)).1 (get_svg_dimensions (some doc)).2) / 2,
    computeScale g (get_svg_dimensions (some doc)).1 (get_svg_dimensions (some doc)).2, ?_⟩
  rw [hp]
  simp

/-- C6 witness: the theorem instantiated at the default grid with one
input holding two serialized children. -/
theorem children_verbatim_witness :
    0 < ([⟨"a.svg", some ⟨some "50", some "100", ["<circle/>", "<path/>"]⟩⟩] : List SvgFile).length
    ∧ 0 < defaultSpec.rows * defaultSpec.cols
    ∧ ∃ pre post ox oy s,
      (create_svg_grid [⟨"a.svg", some ⟨some "50", some "100", ["<circle/>", "<path/>"]⟩⟩]
          defaultSpec).items
        = pre ++ (Item.cellRect (cellX defaultSpec 0) (cellY defaultSpec 0)
              defaultSpec.cell_width defaultSpec.cell_height
            :: Item.group ox oy s
                 (⟨some "50", some "100", ["<circle/>", "<path/>"]⟩ : SvgDoc).children
            :: Item.label (cellX defaultSpec 0 + defaultSpec.cell_width / 2)
                 (cellY defaultSpec 0 + defaultSpec.cell_height - 5)
                 (([⟨"a.svg", some ⟨some "50", some "100", ["<circle/>", "<path/>"]⟩⟩]
                    : List SvgFile).get ⟨0, by norm_num⟩).name
            :: post) :=
  ⟨by norm_num, by norm_num [defaultSpec],
    children_verbatim defaultSpec
      [⟨"a.svg", some ⟨some "50", some "100", ["<circle/>", "<path/>"]⟩⟩] 0
      ⟨some "50", some "100", ["<circle/>", "<path/>"]⟩
      (by norm_num) (by norm_num [defaultSpec]) rfl⟩

/-- C7: an input that fails to read or parse yields for its cell exactly
the error placeholder — the cell-sized rectangle at the cell's corner
and the "Error loading file" text at the cell's horizontal and vertical
center, nothing else — while every cell of the grid, before and after
it, is still emitted at its own place, and no successfully parsed input
ever produces an error item. -/
theorem error_placeholder_contained (g : GridSpec) (files : List SvgFile) (i : ℕ)
    (hi : i < files.length) (hcap : i < g.rows * g.cols)
    (hbad : (files.get ⟨i, hi⟩).content = none) :
    cellItems g i (files.get ⟨i, hi⟩)
      = [Item.errorRect (cellX g i) (cellY g i) g.cell_width g.cell_height,
         Item.errorText (cellX g i + g.cell_width / 2) (cellY g i + g.cell_height / 2)]
    ∧ (∀ (j : ℕ) (hj : j < files.length), j < g.rows * g.cols →
        ∃ pre post, (create_svg_grid files g).items
          = pre ++ cellItems g j (files.get ⟨j, hj⟩) ++ post)
    ∧ (∀ (j : ℕ) (f : SvgFile), f.content ≠ none →
        ∀ it ∈ cellItems g j f, it.isErrorItem = false) := by
  refine ⟨cellItems_none g i _ hbad, fun j hj hjcap => grid_block g files j hj hjcap, ?_⟩
  intro j f hf it hit
  cases hc : f.content with
  | none => exact absurd hc hf
  | some doc =>
    rw [cellItems_some g j f doc hc] at hit
    simp only [List.mem_cons, List.mem_singleton] at hit
    rcases hit with rfl | rfl | rfl | hfalse
    · rfl
    · rfl
    · rfl
    · exact absurd hfalse (List.not_mem_nil _)

/-- C7 witness: a failing input in cell 0 next to a valid input in
cell 1, at the default grid. -/
theorem error_placeholder_contained_witness :
    0 < ([⟨"bad.svg", none⟩, ⟨"good.svg", some ⟨some "50", some "100", []⟩⟩]
          : List SvgFile).length
    ∧ 0 < defaultSpec.rows * defaultSpec.cols
    ∧ (([⟨"bad.svg", none⟩, ⟨"good.svg", some ⟨some "50", some "100", []⟩⟩]
          : List SvgFile).get ⟨0, by norm_num⟩).content = none
    ∧ (cellItems defaultSpec 0
        (([⟨"bad.svg", none⟩, ⟨"good.svg", some ⟨some "50", some "100", []⟩⟩]
          : List SvgFile).get ⟨0, by norm_num⟩)
      = [Item.errorRect (cellX defaultSpec 0) (cellY defaultSpec 0)
           defaultSpec.cell_width defaultSpec.cell_height,
         Item.errorText (cellX defaultSpec 0 + defaultSpec.cell_width / 2)
           (cellY defaultSpec 0 + defaultSpec.cell_height / 2)]
    ∧ (∀ (j : ℕ) (hj : j < ([⟨"bad.svg", none⟩, ⟨"good.svg", some ⟨some "50", some "100", []⟩⟩]
          : List SvgFile).length), j < defaultSpec.rows * defaultSpec.cols →
        ∃ pre post, (create_svg_grid
            [⟨"bad.svg", none⟩, ⟨"good.svg", some ⟨some "50", some "100", []⟩⟩] defaultSpec).items
          = pre ++ cellItems defaultSpec j
              (([⟨"bad.svg", none⟩, ⟨"good.svg", some ⟨some "50", some "100", []⟩⟩]
                : List SvgFile).get ⟨j, hj⟩) ++ post)
    ∧ (∀ (j : ℕ) (f : SvgFile), f.content ≠ none →
        ∀ it ∈ cellItems defaultSpec j f, it.isErrorItem = false)) :=
  ⟨by norm_num, by norm_num [defaultSpec], rfl,
    error_placeholder_contained defaultSpec
      [⟨"bad.svg", none⟩, ⟨"good.svg", some ⟨some "50", some "100", []⟩⟩] 0
      (by norm_num) (by norm_num [defaultSpec]) rfl⟩

end SvgGrid

namespace SvgGrid

lemma cellItems_no_background (g : GridSpec) (idx : ℕ) (f : SvgFile) :
    (cellItems g idx f).countP Item.isBackground = 0 := by
  cases hc : f.content with
  | none => rw [cellItems_none g idx f hc]; rfl
  | some doc => rw [cellItems_some g idx f doc hc]; rfl

lemma placeCells_no_background (g : GridSpec) :
    ∀ (k : ℕ) (fs : List SvgFile), (placeCells g k fs).countP Item.isBackground = 0 := by
  intro k fs
  induction fs generalizing k with
  | nil => rfl
  | cons f fs ih =>
    rw [placeCells, List.countP_append, cellItems_no_background, ih]

/-- C10: for every list of inputs — empty, partially failing or entirely
failing — the serialized output starts with the fixed XML declaration
and `svg` root element carrying the declared namespaces, contains
exactly one full-canvas background rectangle (emitted first, sized to
the total canvas), and ends with the closing `</svg>` tag: the document
skeleton is emitted unconditionally. -/
theorem skeleton_unconditional (sq : ℚ → String) (g : GridSpec) (files : List SvgFile) :
    (∃ rest, serializeGrid sq (create_svg_grid files g) = headerStart ++ rest)
    ∧ (∃ body, serializeGrid sq (create_svg_grid files g) = body ++ "</svg>")
    ∧ (create_svg_grid files g).items.head?
        = some (Item.backgroundRect (create_svg_grid files g).totalWidth
            (create_svg_grid files g).totalHeight)
    ∧ (create_svg_grid files g).items.countP Item.isBackground = 1 := by
  refine ⟨?_, ?_, rfl, ?_⟩
  · refine ⟨sq (create_svg_grid files g).totalWidth ++ "\" height=\""
      ++ sq (create_svg_grid files g).totalHeight ++ "\" viewBox=\"0 0 "
      ++ sq (create_svg_grid files g).totalWidth ++ " "
      ++ sq (create_svg_grid files g).totalHeight ++ "\">\n"
      ++ (String.join ((create_svg_grid files g).items.map (renderItem sq)) ++ "</svg>"), ?_⟩
    rw [serializeGrid, headerText]
    simp only [String.append_assoc]
  · exact ⟨headerText sq (create_svg_grid files g).totalWidth
        (create_svg_grid files g).totalHeight
      ++ String.join ((create_svg_grid files g).items.map (renderItem sq)), rfl⟩
  · have hitems : (create_svg_grid files g).items
        = Item.backgroundRect (create_svg_grid files g).totalWidth
            (create_svg_grid files g).totalHeight
          :: placeCells g 0 (files.take (g.rows * g.cols)) := rfl
    rw [hitems, List.countP_cons_of_pos _ _ (by rfl), placeCells_no_background]

lemma collect_files (args : List Arg) : ∀ (fs : List String) (o : String),
    (args.foldl collectStep (fs, o)).1
      = fs ++ (args.filter (fun a => endsWithSvg a.name && a.onDisk)).map Arg.name := by
  induction args with
  | nil => intro fs o; simp
  | cons a args ih =>
    intro fs o
    rw [List.foldl_cons]
    cases h1 : endsWithSvg a.name with
    | false => simp [collectStep, h1, ih]
    | true =>
      cases h2 : a.onDisk with
      | true => simp [collectStep, h1, h2, ih]
      | false =>
        by_cases h3 : 8 ≤ fs.length
        · simp [collectStep, h1, h2, h3, ih]
        · simp [collectStep, h1, h2, h3, ih]

lemma filterMap_pad (l : List String) (k : ℕ) :
    ((l.map some ++ List.replicate k (none : Option String)).filterMap id) = l := by
  rw [List.filterMap_append]
  have h1 : (l.map some).filterMap id = l := by
    induction l with
    | nil => rfl
    | cons x xs ih => simp [ih]
  have h2 : (List.replicate k (none : Option String)).filterMap id = [] := by
    induction k with
    | zero => rfl
    | succ n ih => simp [List.replicate_succ, ih]
  rw [h1, h2, List.append_nil]

lemma finalFiles_eq (args : List Arg) : finalFiles args = trimmedFiles args :=
  filterMap_pad _ _

lemma collectState_files (args : List Arg) :
    (collectState args).1
      = (args.filter (fun a => endsWithSvg a.name && a.onDisk)).map Arg.name := by
  rw [collectState, collect_files args [] "grid_output.svg", List.nil_append]

lemma finalFiles_nil_iff (args : List Arg) :
    finalFiles args = [] ↔ args.filter (fun a => endsWithSvg a.name && a.onDisk) = [] := by
  rw [finalFiles_eq, trimmedFiles]
  constructor
  · intro h
    by_cases h8 : 8 < (collectState args).1.length
    · rw [if_pos h8] at h
      have hlen := congrArg List.length h
      rw [List.length_take, List.length_nil] at hlen
      omega
    · rw [if_neg h8] at h
      rw [collectState_files] at h
      exact List.map_eq_nil_iff.mp h
  · intro h
    have hc : (collectState args).1 = [] := by
      rw [collectState_files, h]
      rfl
    rw [hc]
    simp

/-- C8: the run aborts with a non-zero exit status — at the usage check
or at the "no valid SVG files" check, in both cases before
`create_svg_grid` is called and before anything is written to the
output path — exactly when the argument list contains no argument that
both ends in `.svg` and exists on disk; whenever `main` reaches the
composition call, its file list is nonempty. -/
theorem zero_valid_inputs_aborts (args : List Arg) :
    ((mainModel args).aborts = true
      ↔ args.filter (fun a => endsWithSvg a.name && a.onDisk) = [])
    ∧ (∀ (files : List String) (output : String),
        mainModel args = MainResult.composed files output → files ≠ []) := by
  by_cases hargs : args.length < 1
  · have hnil : args = [] := List.eq_nil_of_length_eq_zero (by omega)
    subst hnil
    refine ⟨?_, ?_⟩
    · rw [mainModel]
      simp [MainResult.aborts]
    · intro files output h
      rw [mainModel] at h
      simp at h
  · rw [mainModel, if_neg hargs]
    by_cases hfin : (finalFiles args).isEmpty
    · rw [if_pos hfin]
      refine ⟨?_, ?_⟩
      · rw [← finalFiles_nil_iff, ← List.isEmpty_iff]
        simp [MainResult.aborts, hfin]
      · intro files output h
        exact absurd h (by simp)
    · rw [if_neg hfin]
      refine ⟨?_, ?_⟩
      · rw [← finalFiles_nil_iff, ← List.isEmpty_iff]
        simp [MainResult.aborts, hfin]
      · intro files output h
        have hfiles := ((MainResult.composed.injEq _ _ _ _).mp h).1
        rw [← hfiles]
        intro hc
        exact hfin (by rw [hc]; rfl)

end SvgGrid
